import Mathlib

/-!
Verification development for the mock-interviewer backend core:
the session state machine (backend/src/services/SessionManager.ts) and the
rubric-first answer evaluator with its oracle fallback paths
(backend/src/services/llmAdapter.ts, the RubricFirstEvaluator and
NvidiaAdapter variant).

The embedding is shallow: TypeScript objects become structures, the
in-memory session Map becomes an association list, timestamps are
millisecond counts (Nat), and the two sources of nondeterminism are made
explicit parameters: the random draws used by the placeholder scoring
(rational draws standing for Math.random, each in [0,1)) and the outcome
of the remote oracle call (an OracleOutcome value standing for the network
and JSON.parse result). JavaScript number arithmetic on the integer
scores is modelled exactly; Math.round on nonnegative values is
floor(x + 1/2), which matches the JavaScript round-half-up rule.
-/

/-- JS substring test over chars: listStartsWith hay needle is true when
needle is an initial segment of hay. -/
def listStartsWith : List Char → List Char → Bool
  | _, [] => true
  | [], _ :: _ => false
  | a :: as, b :: bs => a == b && listStartsWith as bs

/-- listHasSub hay needle: needle occurs contiguously somewhere in hay. -/
def listHasSub : List Char → List Char → Bool
  | [], needle => listStartsWith [] needle
  | a :: rest, needle => listStartsWith (a :: rest) needle || listHasSub rest needle

/-- Model of JavaScript String.prototype.includes (substring search). -/
def jsIncludes (hay needle : String) : Bool :=
  listHasSub hay.data needle.data

/-- String.prototype.toLowerCase over the character list (the strings in
this code base are ASCII, where JavaScript and Char.toLower agree). -/
def jsToLower (s : String) : String :=
  String.mk (s.data.map Char.toLower)

/-- String.prototype.trim: strip whitespace from both ends. -/
def jsTrim (s : String) : String :=
  String.mk (((s.data.dropWhile Char.isWhitespace).reverse.dropWhile
    Char.isWhitespace).reverse)

/-- substring(0, n) over the character list. -/
def jsTake (s : String) (n : Nat) : String :=
  String.mk (s.data.take n)

/-- Split a character list at every separator character: n separators
yield n+1 fragments, empty fragments included. -/
def splitChars (p : Char → Bool) : List Char → List Char → List (List Char)
  | [], acc => [acc.reverse]
  | c :: rest, acc =>
      if p c then acc.reverse :: splitChars p rest []
      else splitChars p rest (c :: acc)

/-- String split on a separator predicate, as a list of strings. -/
def jsSplit (s : String) (p : Char → Bool) : List String :=
  (splitChars p s.data []).map String.mk

/-- Math.round(num/den) for natural num, den > 0: round half up equals
floor((num + den/2)/den), computed as (2*num + den) / (2*den). -/
def jsRoundDiv (num den : Nat) : Nat :=
  (2 * num + den) / (2 * den)

/-- Math.round on a rational (the random-draw expressions r*40+60 and
r*40+50): JavaScript rounds half toward positive infinity, i.e.
floor(x + 1/2). -/
def jsRoundRat (x : ℚ) : ℤ :=
  Int.floor (x + 1 / 2)

/-- Difficulty tier of a question ('beginner' | 'intermediate' | 'advanced'). -/
inductive Difficulty
  | beginner
  | intermediate
  | advanced
deriving DecidableEq

/-- The string the TypeScript union value interpolates into template ids. -/
def Difficulty.name : Difficulty → String
  | .beginner => "beginner"
  | .intermediate => "intermediate"
  | .advanced => "advanced"

/-- shared Question shape as used by the llmAdapter and SessionManager. -/
structure Question where
  id : String
  text : String
  category : String
  difficulty : Difficulty
  expectedAnswer : String
  keywords : List String
  hints : List String
deriving DecidableEq

/-- shared Answer shape: submittedAt is a millisecond timestamp. -/
structure Answer where
  questionId : String
  text : String
  submittedAt : Nat
  attempt : Nat
deriving DecidableEq

/-- EvaluationResult returned by every evaluator path. The score is an
integer because the oracle JSON may carry any number. -/
structure EvaluationResult where
  score : ℤ
  pass : Bool
  feedback : String
  followUps : List String
deriving DecidableEq

/-- Per-question entry of the final SessionEvaluation. -/
structure QuestionScore where
  questionId : String
  score : ℤ
  feedback : String
  strengths : List String
  improvements : List String
deriving DecidableEq

/-- SessionEvaluation assembled when a session completes. -/
structure SessionEvaluation where
  sessionId : String
  overallScore : ℤ
  questionScores : List QuestionScore
  completedAt : Nat
  feedback : String
  recommendations : List String
deriving DecidableEq

/-- Session lifecycle status from shared types; SessionManager itself only
produces in_progress and completed. -/
inductive SessionStatus
  | not_started
  | in_progress
  | completed
  | abandoned
deriving DecidableEq

/-- Session record owned by the SessionManager. -/
structure Session where
  id : String
  userId : String
  questions : List Question
  currentQuestionIndex : Nat
  answers : List Answer
  evaluation : Option SessionEvaluation
  status : SessionStatus
  startedAt : Nat
  completedAt : Option Nat := none
  overallScore : Option ℤ := none
deriving DecidableEq

/-! ### RubricFirstEvaluator deterministic heuristics (llmAdapter.ts) -/

/-- The regex split /[\s,.;]+/ used on the expected answer: separator
characters are whitespace, comma, period and semicolon. Runs of
separators produce empty fragments here where the regex collapses them,
but every empty fragment is discarded by the length > 3 filter that every
caller applies, so the filtered lists coincide. -/
def splitSeps (s : String) : List String :=
  jsSplit s fun c => c.isWhitespace || c == ',' || c == '.' || c == ';'

/-- The combined keyword list of keywordMatchScore:
[...question.keywords, ...question.expectedAnswer.toLowerCase().split(/[\s,.;]+/)]
filtered to words of length > 3. -/
def combinedKeywordList (q : Question) : List String :=
  (q.keywords ++ splitSeps (jsToLower q.expectedAnswer)).filter fun w => w.length > 3

/-- RubricFirstEvaluator.keywordMatchScore: fraction of combined keywords
found (case-insensitively) in the answer, scaled to 0-100, rounded,
denominator guarded by max(keywords.length, 1), capped at 100. -/
def keywordMatchScore (q : Question) (answer : String) : Nat :=
  let answerLower := jsToLower answer
  let keywords := combinedKeywordList q
  let hits := keywords.filter fun w => jsIncludes answerLower (jsToLower w)
  min 100 (jsRoundDiv (hits.length * 100) (max keywords.length 1))

/-- The fixed domain vocabulary of formulaMentionScore. -/
def formulaKeywords : List String :=
  ["vlookup", "index", "match", "sum", "if", "count", "average", "pivot",
   "chart", "formula", "function"]

/-- RubricFirstEvaluator.formulaMentionScore: fraction of the 11 domain
terms present in the lowercased answer, scaled to 0-100. -/
def formulaMentionScore (answer : String) : Nat :=
  let answerLower := jsToLower answer
  let hits := formulaKeywords.filter fun f => jsIncludes answerLower f
  min 100 (jsRoundDiv (hits.length * 100) formulaKeywords.length)

/-- Scanner state for counting matches of /\d+(\.\d+)?/g: outside any
match, inside the integer digits, just after a dot that followed integer
digits, or inside fraction digits. -/
inductive NumScanState
  | out
  | intPart
  | dotPart
  | fracPart
deriving DecidableEq

/-- One step of the global regex scan for /\d+(\.\d+)?/g. A new match
begins exactly when a digit is seen from outside a match; a dot directly
after integer digits may extend the match by a fraction part; any other
character ends the match and is itself outside (it cannot start one). -/
def numScanStep : NumScanState → Char → NumScanState × Nat
  | .out, c => if c.isDigit then (.intPart, 1) else (.out, 0)
  | .intPart, c =>
      if c.isDigit then (.intPart, 0)
      else if c == '.' then (.dotPart, 0) else (.out, 0)
  | .dotPart, c => if c.isDigit then (.fracPart, 0) else (.out, 0)
  | .fracPart, c => if c.isDigit then (.fracPart, 0) else (.out, 0)

/-- Number of matches of answer.match(/\d+(\.\d+)?/g): occurrences, not
distinct values. -/
def countNumericMatches (s : String) : Nat :=
  (s.data.foldl (fun acc c =>
    let next := numScanStep acc.1 c
    (next.1, acc.2 + next.2)) ((NumScanState.out, 0) : NumScanState × Nat)).2

/-- RubricFirstEvaluator.numericCheckScore: 10 points per numeric match,
capped at 100 (a null match result scores 0, which min already yields). -/
def numericCheckScore (answer : String) : Nat :=
  min 100 (countNumericMatches answer * 10)

/-- The weighted deterministic aggregate
Math.min(100, Math.round(keyword*0.6 + formula*0.3 + numeric*0.1)):
with natural sub-scores this is min(100, round((6k + 3f + n)/10)). -/
def deterministicScore (q : Question) (answer : String) : Nat :=
  min 100 (jsRoundDiv
    (6 * keywordMatchScore q answer + 3 * formulaMentionScore answer +
      numericCheckScore answer) 10)

/-! ### NvidiaAdapter oracle paths (llmAdapter.ts) -/

/-- Result of JSON.parse on the oracle response body: either the parse
throws (malformed), or it yields an object whose four relevant fields may
each be absent (the ?? defaults in parseResponse fire on absence). -/
inductive JsonParseOutcome
  | malformed
  | parsed (score : Option ℤ) (pass : Option Bool) (feedback : Option String)
      (followUps : Option (List String))
deriving DecidableEq

/-- Outcome of the remote call callNvidiaAPI: either it throws (network
failure, empty choices, empty content), or it returns a response body
whose JSON.parse outcome is recorded. -/
inductive OracleOutcome
  | noResponse
  | response (r : JsonParseOutcome)
deriving DecidableEq

/-- NvidiaAdapter.parseResponse: a JSON.parse failure is caught locally
and becomes a fixed score-50 result; otherwise absent fields default
(score 0, pass false, stock feedback, empty follow-ups). -/
def parseResponse : JsonParseOutcome → EvaluationResult
  | .malformed =>
      { score := 50, pass := false,
        feedback := "Unable to evaluate response properly, but some effort shown.",
        followUps := [] }
  | .parsed score pass feedback followUps =>
      { score := score.getD 0, pass := pass.getD false,
        feedback := feedback.getD "No feedback provided",
        followUps := followUps.getD [] }

/-- NvidiaAdapter.fallbackEvaluation: length/keyword score with base 40,
+20 for trimmed length > 50, +10 more for > 100, +20 for any keyword
present, +10 more for length > 200, capped at 100; pass at score >= 60;
follow-ups exactly when score < 70. -/
def fallbackEvaluation (q : Question) (userAnswer : String) : EvaluationResult :=
  let answerLength := (jsTrim userAnswer).length
  let hasKeywords := q.keywords.any fun kw =>
    jsIncludes (jsToLower userAnswer) (jsToLower kw)
  let score := min 100
    (40 + (if answerLength > 50 then 20 else 0)
        + (if answerLength > 100 then 10 else 0)
        + (if hasKeywords then 20 else 0)
        + (if answerLength > 200 then 10 else 0))
  { score := (score : ℤ),
    pass := decide ((score : ℤ) ≥ 60),
    feedback :=
      if score ≥ 80 then "Good comprehensive answer covering key concepts."
      else if score ≥ 60 then "Adequate answer but could include more detail and examples."
      else "Answer needs more depth and coverage of key concepts.",
    followUps :=
      if score < 70 then
        ["Can you provide a specific example?",
         "What are the key benefits of this approach?"]
      else [] }

/-- NvidiaAdapter.evaluateAnswer: without an API key it falls back
immediately; a thrown oracle call is caught and falls back; a returned
body is handed to parseResponse (which never throws). -/
def nvidiaEvaluateAnswer (hasApiKey : Bool) (q : Question) (userAnswer : String)
    (outcome : OracleOutcome) : EvaluationResult :=
  if !hasApiKey then fallbackEvaluation q userAnswer
  else
    match outcome with
    | .noResponse => fallbackEvaluation q userAnswer
    | .response r => parseResponse r

/-- RubricFirstEvaluator.evaluateAnswer. The second component records
whether the nvidiaClient call was reached (false on the deterministic
short-circuit). -/
def rubricEvaluateAnswer (hasApiKey : Bool) (q : Question) (userAnswer : String)
    (outcome : OracleOutcome) : EvaluationResult × Bool :=
  let ds := deterministicScore q userAnswer
  if ds ≥ 85 then
    ({ score := (ds : ℤ), pass := true,
       feedback := "Excellent coverage of key concepts and formulas.",
       followUps := [] }, false)
  else
    let llmResult := nvidiaEvaluateAnswer hasApiKey q userAnswer outcome
    let finalScore := max (ds : ℤ) llmResult.score
    ({ score := finalScore, pass := decide (finalScore ≥ 60),
       feedback := llmResult.feedback,
       followUps := llmResult.followUps.take 3 }, true)

/-! ### Question generation fallback (NvidiaAdapter.generateFallbackQuestions) -/

/-- The five built-in beginner templates. -/
def beginnerTemplates : List String :=
  ["What is the difference between a formula and a function in Excel?",
   "How do you create a basic chart in Excel?",
   "Explain how to use the SUM function.",
   "What are cell references and how do you use them?",
   "How do you format cells in Excel?"]

/-- The five built-in intermediate templates. -/
def intermediateTemplates : List String :=
  ["Explain the VLOOKUP function and provide an example.",
   "How do you create and use pivot tables?",
   "What is conditional formatting and how is it used?",
   "Explain the INDEX and MATCH functions.",
   "How do you use data validation in Excel?"]

/-- The five built-in advanced templates. -/
def advancedTemplates : List String :=
  ["Explain array formulas and their applications.",
   "How do you use Power Query for data transformation?",
   "What are advanced pivot table features?",
   "Explain macro creation and VBA basics.",
   "How do you perform statistical analysis in Excel?"]

/-- templates[difficulty] || templates.beginner: the difficulty is a
closed union, so the lookup always succeeds and the || default is dead. -/
def templatesFor : Difficulty → List String
  | .beginner => beginnerTemplates
  | .intermediate => intermediateTemplates
  | .advanced => advancedTemplates

/-- The stopword set of extractKeywords. -/
def commonWords : List String :=
  ["what", "how", "the", "and", "or", "in", "to", "a", "an", "is", "are",
   "do", "does"]

/-- replace(/[^\w\s]/g, fun) with the empty replacement: keep word
characters (alphanumerics and underscore) and whitespace, drop the rest. -/
def stripNonWord (s : String) : String :=
  String.mk (s.data.filter fun c => c.isAlphanum || c == '_' || c.isWhitespace)

/-- NvidiaAdapter.extractKeywords: lowercase, strip punctuation, split on
single spaces, keep words longer than 2 characters that are not
stopwords, and take the first 5. -/
def extractKeywords (text : String) : List String :=
  (((jsSplit (stripNonWord (jsToLower text)) fun c => c == ' ').filter fun word =>
      word.length > 2 && !commonWords.contains word)).take 5

/-- category || the default: the JS || also replaces an empty string,
which is falsy. -/
def jsOrString (o : Option String) (d : String) : String :=
  match o with
  | none => d
  | some s => if s = "" then d else s

/-- Template-literal id fallback_(difficulty)_(index)_(Date.now()). -/
def fallbackQuestionId (difficulty : Difficulty) (index now : Nat) : String :=
  "fallback_" ++ difficulty.name ++ "_" ++ toString index ++ "_" ++ toString now

/-- NvidiaAdapter.generateFallbackQuestions: slice the per-difficulty
template list to count entries and build a Question from each. -/
def generateFallbackQuestions (count : Nat) (difficulty : Difficulty)
    (category : Option String) (now : Nat) : List Question :=
  let questionTexts := templatesFor difficulty
  let selected := questionTexts.take count
  selected.enum.map fun p =>
    { id := fallbackQuestionId difficulty p.1 now
      text := p.2
      category := jsOrString category "Excel Fundamentals"
      difficulty := difficulty
      expectedAnswer :=
        "A comprehensive answer covering the key concepts and practical applications of "
          ++ jsToLower p.2 ++ "."
      keywords := extractKeywords p.2
      hints := ["Think about practical applications",
                "Consider step-by-step procedures",
                "Include specific examples where relevant"] }

/-! ### SessionManager (SessionManager.ts) -/

/-- The error taxonomy thrown by SessionManager methods. -/
inductive SMError
  | sessionNotFound
  | questionMismatch
  | noCurrentQuestion
  | questionGenerationFailed
deriving DecidableEq

/-- The in-memory session Map, as an association list keyed by session
id (insertion order preserved, keys unique as Map guarantees). -/
abbrev SessionStore := List (String × Session)

/-- Map.prototype.set: overwrite the value at an existing key in place,
append a fresh key at the end. -/
def storeSet (store : SessionStore) (sessionId : String) (s : Session) :
    SessionStore :=
  if (store.lookup sessionId).isSome then
    store.map fun p => if p.1 = sessionId then (sessionId, s) else p
  else store ++ [(sessionId, s)]

/-- SessionManager.createSession, after the question-generation call has
produced generated: throws when zero questions came back, otherwise
stores a fresh in-progress session at index 0 with empty collections. -/
def createSession (store : SessionStore) (sessionId userId : String)
    (generated : List Question) (now : Nat) :
    SessionStore × Except SMError Session :=
  if generated.length = 0 then (store, .error .questionGenerationFailed)
  else
    let session : Session :=
      { id := sessionId, userId := userId, questions := generated,
        currentQuestionIndex := 0, answers := [], evaluation := none,
        status := .in_progress, startedAt := now }
    (storeSet store sessionId session, .ok session)

/-- SessionManager.addAnswer: missing session throws Session not found;
a missing current question or an id different from the submitted
questionId throws Question mismatch (one combined guard in the source);
otherwise the answer is appended with attempt = 1 + count of stored
answers for the same questionId and the session is written back. The
first component is the store after the call: every throw happens before
any mutation, so it is returned unchanged on error. -/
def addAnswer (store : SessionStore) (sessionId questionId answerText : String)
    (now : Nat) : SessionStore × Except SMError (Session × Answer) :=
  match store.lookup sessionId with
  | none => (store, .error .sessionNotFound)
  | some session =>
    match session.questions.get? session.currentQuestionIndex with
    | none => (store, .error .questionMismatch)
    | some currentQuestion =>
      if currentQuestion.id ≠ questionId then (store, .error .questionMismatch)
      else
        let attempt :=
          (session.answers.filter fun a => a.questionId == questionId).length + 1
        let answer : Answer :=
          { questionId := questionId, text := answerText,
            submittedAt := now, attempt := attempt }
        let updated := { session with answers := session.answers ++ [answer] }
        (storeSet store sessionId updated, .ok (updated, answer))

/-- SessionManager.calculateOverallScore: 0 when the session holds no
answers, otherwise the placeholder Math.round(Math.random()*40 + 60),
with the random draw r made explicit (0 <= r < 1 for a real draw). -/
def calculateOverallScore (session : Session) (r : ℚ) : ℤ :=
  if session.answers.length = 0 then 0 else jsRoundRat (r * 40 + 60)

/-- SessionManager.generateSessionEvaluation: placeholder per-question
scores Math.round(Math.random()*40 + 50), one independent draw per
question (rand i is the draw for question i). The questionAnswers and
lastAnswer bindings of the source are dead in this method and are not
modelled. -/
def generateSessionEvaluation (session : Session) (now : Nat)
    (rand : Nat → ℚ) : SessionEvaluation :=
  { sessionId := session.id
    overallScore := session.overallScore.getD 0
    questionScores := session.questions.enum.map fun p =>
      { questionId := p.2.id
        score := jsRoundRat (rand p.1 * 40 + 50)
        feedback := "Answer for " ++ jsTake p.2.text 50 ++ "..."
        strengths := ["Good understanding of concepts"]
        improvements := ["Could provide more specific examples"] }
    completedAt := now
    feedback := "Overall good performance with room for improvement"
    recommendations := ["Practice more advanced Excel functions",
                        "Focus on data analysis techniques",
                        "Review pivot table creation"] }

/-- The session transition of SessionManager.moveToNextQuestion: below
the last question the index advances by one; at (or beyond) the last
question the session is stamped completed with completedAt, overallScore
and the final evaluation, overwriting any earlier stamps. The
length - 1 is JavaScript arithmetic: for an empty question list the
comparison 0 < -1 is false there and 0 < 0 is false here, so both take
the completion branch. -/
def advanceSession (session : Session) (now : Nat) (r : ℚ) (rand : Nat → ℚ) :
    Session :=
  if session.currentQuestionIndex < session.questions.length - 1 then
    { session with currentQuestionIndex := session.currentQuestionIndex + 1 }
  else
    let completed := { session with
      status := SessionStatus.completed
      completedAt := some now
      overallScore := some (calculateOverallScore session r) }
    { completed with
      evaluation := some (generateSessionEvaluation completed now rand) }

/-- SessionManager.moveToNextQuestion: lookup, transition, write back. -/
def moveToNextQuestion (store : SessionStore) (sessionId : String) (now : Nat)
    (r : ℚ) (rand : Nat → ℚ) : SessionStore × Except SMError Session :=
  match store.lookup sessionId with
  | none => (store, .error .sessionNotFound)
  | some session =>
    let updated := advanceSession session now r rand
    (storeSet store sessionId updated, .ok updated)

/-- SessionManager.cleanupExpiredSessions: collect every id whose
(now - startedAt) / (1000*60*60) exceeds 24, then delete them. On exact
millisecond integers the float comparison holds iff
now - startedAt > 86400000; a future startedAt gives a negative quotient
in JavaScript and a truncated 0 here, kept either way. Deleting the
collected keys from the Map is filtering the association list. -/
def cleanupExpiredSessions (store : SessionStore) (now : Nat) : SessionStore :=
  store.filter fun p => !(now - p.2.startedAt > 24 * 3600000)

/-- Number of answers a session already stores for one questionId. -/
def attemptsFor (answers : List Answer) (qid : String) : Nat :=
  (answers.filter fun a => a.questionId == qid).length

/-- The attempt fields for each questionId read 1, 2, ..., k in order of
submission: the Nth stored answer for a question is attempt N. -/
def WellNumbered (answers : List Answer) : Prop :=
  ∀ qid : String,
    ((answers.filter fun a => a.questionId == qid).map Answer.attempt)
      = List.range' 1 (attemptsFor answers qid)

/-! ### Concrete fixtures for counterexamples and witnesses -/

/-- A question whose combined keyword list is ["vlookup", "vlookup"]. -/
def qVlookup : Question :=
  { id := "q1", text := "Explain the VLOOKUP function.",
    category := "formulas", difficulty := Difficulty.beginner,
    expectedAnswer := "use vlookup", keywords := ["vlookup"], hints := [] }

/-- A question with no keywords and no expected-answer word longer than
3 characters, so its combined keyword list is empty. -/
def qBare : Question :=
  { id := "q0", text := "Say hi.", category := "basics",
    difficulty := Difficulty.beginner, expectedAnswer := "hi ok",
    keywords := [], hints := [] }

/-- An answer containing every combined keyword of qVlookup, every
domain term, and exactly 5 numeric matches. -/
def fullAnswer : String :=
  "vlookup index match sum if count average pivot chart formula function 1 2 3 4 5"

/-- The constant-zero random stream used to instantiate the explicit
randomness at concrete inputs. -/
def randZero : Nat → ℚ := fun _ => 0

/-- In-progress one-question session holding one answer (fixture). -/
def sessionOneAnswered : Session :=
  { id := "s1", userId := "u1", questions := [qVlookup],
    currentQuestionIndex := 0,
    answers := [{ questionId := "q1", text := "hi", submittedAt := 10, attempt := 1 }],
    evaluation := none, status := SessionStatus.in_progress, startedAt := 0 }

/-- Completed one-question session still at index 0 (fixture). -/
def sessionCompleted : Session :=
  { id := "s2", userId := "u1", questions := [qVlookup],
    currentQuestionIndex := 0, answers := [], evaluation := none,
    status := SessionStatus.completed, startedAt := 0,
    completedAt := some 500, overallScore := some 60 }

/-- Fresh in-progress one-question session at index 0 (fixture). -/
def sessionFresh : Session :=
  { id := "s3", userId := "u1", questions := [qVlookup],
    currentQuestionIndex := 0, answers := [], evaluation := none,
    status := SessionStatus.in_progress, startedAt := 0 }

/-- The answer addAnswer appends onto the completed fixture session. -/
def answerLate : Answer :=
  { questionId := "q1", text := "late", submittedAt := 999, attempt := 1 }

/-- sessionCompleted after the late answer was accepted (fixture). -/
def sessionCompletedAfter : Session :=
  { sessionCompleted with answers := [answerLate] }

/-- Two-session store, both started at time 0 (fixture). -/
def storePair : SessionStore :=
  [("s1", sessionOneAnswered), ("s2", sessionCompleted)]

/-! ### Helper lemmas -/

/-- Appending an answer numbered 1 + the current count for its question
preserves the 1..N attempt numbering of every question. -/
theorem wellNumbered_append (answers : List Answer) (qid text : String) (t : Nat)
    (h : WellNumbered answers) :
    WellNumbered (answers ++
      [{ questionId := qid, text := text, submittedAt := t,
         attempt := attemptsFor answers qid + 1 }]) := by
  intro q
  have hfa := h q
  by_cases hqq : (qid == q) = true
  · have hqeq : qid = q := eq_of_beq hqq
    subst hqeq
    simp only [attemptsFor, List.filter_append, List.filter_cons, List.filter_nil,
      hqq, if_pos, List.map_append, List.length_append, List.length_cons,
      List.length_nil, List.map_cons, List.map_nil] at *
    rw [hfa]
    have : (List.filter (fun a => a.questionId == qid) answers).length + (0 + 1)
        = (List.filter (fun a => a.questionId == qid) answers).length + 1 := by omega
    rw [this]
    rw [List.range'_concat]
    simp [Nat.add_comm]
  · simp only [attemptsFor, List.filter_append, List.filter_cons, List.filter_nil,
      hqq] at *
    simpa using hfa

/-- All templates of every difficulty are nonempty strings. -/
theorem templatesFor_text_ne_empty (d : Difficulty) :
    ∀ t ∈ templatesFor d, t ≠ "" := by
  cases d <;> decide

/-- Every per-difficulty template list has exactly 5 entries. -/
theorem templatesFor_length (d : Difficulty) : (templatesFor d).length = 5 := by
  cases d <;> rfl

/-- When every combined keyword occurs in the answer and there is at
least one, the keyword score is exactly 100. -/
theorem keywordMatchScore_of_all_hits (q : Question) (a : String)
    (hne : combinedKeywordList q ≠ [])
    (hall : ∀ w ∈ combinedKeywordList q,
        jsIncludes (jsToLower a) (jsToLower w) = true) :
    keywordMatchScore q a = 100 := by
  have hfilter : (combinedKeywordList q).filter
      (fun w => jsIncludes (jsToLower a) (jsToLower w)) = combinedKeywordList q :=
    List.filter_eq_self.mpr hall
  have hn : 1 ≤ (combinedKeywordList q).length := by
    cases h : combinedKeywordList q with
    | nil => exact absurd h hne
    | cons x xs => simp
  simp only [keywordMatchScore]
  rw [hfilter, Nat.max_eq_left hn]
  have h2 : 2 * ((combinedKeywordList q).length * 100) + (combinedKeywordList q).length
      = (combinedKeywordList q).length * 201 := by ring
  have h3 : 2 * (combinedKeywordList q).length = (combinedKeywordList q).length * 2 := by
    ring
  simp only [jsRoundDiv]
  rw [h2, h3, Nat.mul_div_mul_left 201 2 (by omega)]
  decide

/-- When every one of the 11 domain terms occurs in the answer, the
domain-term score is exactly 100. -/
theorem formulaMentionScore_of_all_hits (a : String)
    (hall : ∀ f ∈ formulaKeywords, jsIncludes (jsToLower a) f = true) :
    formulaMentionScore a = 100 := by
  have hfilter : formulaKeywords.filter (fun f => jsIncludes (jsToLower a) f)
      = formulaKeywords := List.filter_eq_self.mpr hall
  simp only [formulaMentionScore]
  rw [hfilter]
  decide

/-- Five or more numeric matches put the numeric score between 50 and
100. -/
theorem numericCheckScore_bounds (a : String) (h : 5 ≤ countNumericMatches a) :
    50 ≤ numericCheckScore a ∧ numericCheckScore a ≤ 100 := by
  constructor
  · exact Nat.le_min.mpr ⟨by norm_num, by omega⟩
  · exact Nat.min_le_left _ _

/-- Within one generation call (same difficulty and timestamp), distinct
template indices below 5 give distinct question ids. -/
theorem fallbackQuestionId_inj (d : Difficulty) (now : Nat) :
    ∀ i < 5, ∀ j < 5,
      fallbackQuestionId d i now = fallbackQuestionId d j now → i = j := by
  intro i hi j hj h
  have hd := congrArg String.data h
  simp only [fallbackQuestionId, String.data_append, List.append_assoc] at hd
  have h1 := List.append_cancel_left hd
  have h2 := List.append_cancel_left h1
  have h3 := List.append_cancel_left h2
  interval_cases i <;> interval_cases j <;>
    first
    | rfl
    | (exfalso; injection h3 with hc _; exact absurd hc (by decide))

/-! ### Claim theorems -/

/-- Claim C10 (confirmed): the deterministic keyword score is total and
bounded, its division is guarded by the max(length, 1) denominator, and
it returns 0 on an empty combined keyword list instead of failing. -/
theorem c10_keywordMatchScore_total (q : Question) (a : String) :
    keywordMatchScore q a ≤ 100 ∧
    (combinedKeywordList q = [] → keywordMatchScore q a = 0) := by
  constructor
  · exact Nat.min_le_left _ _
  · intro h
    simp [keywordMatchScore, h, jsRoundDiv]

/-- Witness for C10: qBare has an empty combined keyword list (no
keywords, no expected-answer word longer than 3 characters) and scores 0
on an arbitrary answer. -/
theorem c10_witness : keywordMatchScore qBare "anything at all" = 0 :=
  (c10_keywordMatchScore_total qBare "anything at all").2 (by decide)

/-- Claim C4 (corrected): without credentials or on a thrown oracle call
the adapter returns the length/keyword fallback, whose score is exactly
base 40 plus the three length bonuses plus the keyword bonus (the cap at
100 never binds), with pass iff score at least 60 and follow-ups iff
score under 70; but a response body that fails JSON parsing is absorbed
inside parseResponse as a fixed score-50 result, not the fallback
formula. No failure path escapes: every case yields an
EvaluationResult. -/
theorem c4_fallback_paths (q : Question) (a : String) (key : Bool)
    (out : OracleOutcome) :
    (key = false → nvidiaEvaluateAnswer key q a out = fallbackEvaluation q a) ∧
    nvidiaEvaluateAnswer key q a OracleOutcome.noResponse = fallbackEvaluation q a ∧
    nvidiaEvaluateAnswer true q a (OracleOutcome.response JsonParseOutcome.malformed)
      = { score := 50, pass := false,
          feedback := "Unable to evaluate response properly, but some effort shown.",
          followUps := [] } ∧
    (fallbackEvaluation q a).score
      = 40 + (if (jsTrim a).length > 50 then 20 else 0)
          + (if (jsTrim a).length > 100 then 10 else 0)
          + (if (jsTrim a).length > 200 then 10 else 0)
          + (if q.keywords.any fun kw => jsIncludes (jsToLower a) (jsToLower kw)
             then 20 else 0) ∧
    ((fallbackEvaluation q a).pass = true ↔ (fallbackEvaluation q a).score ≥ 60) ∧
    ((fallbackEvaluation q a).followUps ≠ [] ↔ (fallbackEvaluation q a).score < 70) ∧
    40 ≤ (fallbackEvaluation q a).score ∧ (fallbackEvaluation q a).score ≤ 100 := by
  refine ⟨?_, ?_, ?_, ?_, ?_, ?_, ?_, ?_⟩
  · rintro rfl
    simp [nvidiaEvaluateAnswer]
  · cases key <;> simp [nvidiaEvaluateAnswer]
  · simp [nvidiaEvaluateAnswer, parseResponse]
  · simp only [fallbackEvaluation]
    by_cases h1 : (jsTrim a).length > 50 <;>
      by_cases h2 : (jsTrim a).length > 100 <;>
      by_cases h3 : (jsTrim a).length > 200 <;>
      by_cases h4 : (q.keywords.any fun kw =>
        jsIncludes (jsToLower a) (jsToLower kw)) = true <;>
      simp [h1, h2, h3, h4] <;> omega
  · simp only [fallbackEvaluation]
    simp [decide_eq_true_iff]
  · simp only [fallbackEvaluation]
    by_cases h : (min 100
        (40 + (if (jsTrim a).length > 50 then 20 else 0)
            + (if (jsTrim a).length > 100 then 10 else 0)
            + (if (q.keywords.any fun kw =>
                 jsIncludes (jsToLower a) (jsToLower kw)) then 20 else 0)
            + (if (jsTrim a).length > 200 then 10 else 0))) < 70 <;>
      simp [h] <;> omega
  · simp only [fallbackEvaluation]
    by_cases h1 : (jsTrim a).length > 50 <;>
      by_cases h2 : (jsTrim a).length > 100 <;>
      by_cases h3 : (jsTrim a).length > 200 <;>
      by_cases h4 : (q.keywords.any fun kw =>
        jsIncludes (jsToLower a) (jsToLower kw)) = true <;>
      simp [h1, h2, h3, h4]
  · simp only [fallbackEvaluation]
    by_cases h1 : (jsTrim a).length > 50 <;>
      by_cases h2 : (jsTrim a).length > 100 <;>
      by_cases h3 : (jsTrim a).length > 200 <;>
      by_cases h4 : (q.keywords.any fun kw =>
        jsIncludes (jsToLower a) (jsToLower kw)) = true <;>
      simp [h1, h2, h3, h4]

/-- Counterexample for C4: the claim requires the length/keyword formula
(base 40 here: empty answer, no keyword) on a malformed oracle response,
but the code returns the parseResponse default of 50. -/
theorem c4_counterexample :
    nvidiaEvaluateAnswer true qBare "" (OracleOutcome.response JsonParseOutcome.malformed)
      = { score := 50, pass := false,
          feedback := "Unable to evaluate response properly, but some effort shown.",
          followUps := [] } ∧
    (fallbackEvaluation qBare "").score = 40 ∧ (50 : ℤ) ≠ 40 := by decide

/-- Witness for C4: the missing-credentials path at a concrete input. -/
theorem c4_witness :
    nvidiaEvaluateAnswer false qVlookup "short" OracleOutcome.noResponse
      = fallbackEvaluation qVlookup "short" ∧
    (fallbackEvaluation qVlookup "short").score = 40 :=
  ⟨(c4_fallback_paths qVlookup "short" false OracleOutcome.noResponse).1 rfl,
    by decide⟩

/-- Claim C6 (confirmed): whenever the oracle path is taken (aggregate
below 85) and the oracle returns, the final score is the maximum of the
deterministic aggregate and the oracle score, pass is exactly
finalScore >= 60, and at most 3 of the oracle follow-ups are kept. -/
theorem c6_oracle_combination (q : Question) (a : String) (r : JsonParseOutcome)
    (h : deterministicScore q a < 85) :
    (rubricEvaluateAnswer true q a (OracleOutcome.response r)).2 = true ∧
    (rubricEvaluateAnswer true q a (OracleOutcome.response r)).1.score
      = max ((deterministicScore q a : ℤ)) (parseResponse r).score ∧
    ((rubricEvaluateAnswer true q a (OracleOutcome.response r)).1.pass = true ↔
      (rubricEvaluateAnswer true q a (OracleOutcome.response r)).1.score ≥ 60) ∧
    (rubricEvaluateAnswer true q a (OracleOutcome.response r)).1.followUps
      = (parseResponse r).followUps.take 3 ∧
    ((rubricEvaluateAnswer true q a (OracleOutcome.response r)).1.followUps).length
      ≤ 3 := by
  have hn : ¬ deterministicScore q a ≥ 85 := by omega
  have hres : rubricEvaluateAnswer true q a (OracleOutcome.response r)
      = ({ score := max ((deterministicScore q a : ℤ)) (parseResponse r).score,
           pass := decide
             (max ((deterministicScore q a : ℤ)) (parseResponse r).score ≥ 60),
           feedback := (parseResponse r).feedback,
           followUps := (parseResponse r).followUps.take 3 }, true) := by
    simp [rubricEvaluateAnswer, nvidiaEvaluateAnswer, hn]
  rw [hres]
  refine ⟨rfl, rfl, by simp [decide_eq_true_iff], rfl, ?_⟩
  simpa using Nat.min_le_left 3 (parseResponse r).followUps.length

/-- Witness for C6: a concrete low-aggregate input with a parsed oracle
response carrying four follow-ups, of which exactly three survive. -/
theorem c6_witness :
    deterministicScore qBare "" < 85 ∧
    (rubricEvaluateAnswer true qBare ""
      (OracleOutcome.response (JsonParseOutcome.parsed (some 90) (some true)
        (some "ok") (some ["f1", "f2", "f3", "f4"])))).1.followUps
      = ["f1", "f2", "f3"] := by
  refine ⟨by decide, ?_⟩
  have h := (c6_oracle_combination qBare ""
    (JsonParseOutcome.parsed (some 90) (some true) (some "ok")
      (some ["f1", "f2", "f3", "f4"])) (by decide)).2.2.2.1
  rw [h]
  decide

/-- Claim C7 (confirmed): addAnswer records the new answer with attempt
equal to 1 plus the count of answers already stored for the same
questionId, appending it at the end; consequently the Nth recorded
answer for a question carries attempt N (the WellNumbered invariant is
preserved). -/
theorem c7_attempt_numbering (store : SessionStore)
    (sessionId questionId answerText : String) (now : Nat)
    (session : Session) (cq : Question)
    (hlook : store.lookup sessionId = some session)
    (hget : session.questions.get? session.currentQuestionIndex = some cq)
    (hid : cq.id = questionId) :
    ∃ (updated : Session) (answer : Answer),
      addAnswer store sessionId questionId answerText now
        = (storeSet store sessionId updated, Except.ok (updated, answer)) ∧
      answer.attempt = attemptsFor session.answers questionId + 1 ∧
      updated.answers = session.answers ++ [answer] ∧
      (WellNumbered session.answers → WellNumbered updated.answers) := by
  refine ⟨{ session with answers := session.answers ++
      [{ questionId := questionId, text := answerText, submittedAt := now,
         attempt := attemptsFor session.answers questionId + 1 }] },
    { questionId := questionId, text := answerText, submittedAt := now,
      attempt := attemptsFor session.answers questionId + 1 }, ?_, rfl, rfl, ?_⟩
  · simp only [addAnswer, hlook, hget]
    rw [if_neg (by simp [hid])]
    rfl
  · intro hwn
    exact wellNumbered_append session.answers questionId answerText now hwn

/-- Witness for C7: adding a second answer for q1 to a session already
holding one gets attempt 2. -/
theorem c7_witness :
    ∃ (updated : Session) (answer : Answer),
      addAnswer [("s1", sessionOneAnswered)] "s1" "q1" "again" 20
        = (storeSet [("s1", sessionOneAnswered)] "s1" updated,
           Except.ok (updated, answer)) ∧
      answer.attempt = attemptsFor sessionOneAnswered.answers "q1" + 1 ∧
      updated.answers = sessionOneAnswered.answers ++ [answer] ∧
      (WellNumbered sessionOneAnswered.answers → WellNumbered updated.answers) :=
  c7_attempt_numbering [("s1", sessionOneAnswered)] "s1" "q1" "again" 20
    sessionOneAnswered qVlookup (by decide) (by decide) (by decide)

/-- Claim C1 (code_bug): at completion the code sets overallScore from
the placeholder Math.round(Math.random()*40 + 60) whenever any answer
exists, not from the rounded mean of recorded evaluation scores (it
records none, so the claimed value here is 0): the same one-answer
session completes with score 60 under draw 0 and 80 under draw 1/2, and
neither equals 0. -/
theorem c1_overallScore_placeholder :
    (advanceSession sessionOneAnswered 1000 0 randZero).status
        = SessionStatus.completed ∧
    (advanceSession sessionOneAnswered 1000 0 randZero).overallScore = some 60 ∧
    (advanceSession sessionOneAnswered 1000 (1 / 2) randZero).overallScore
        = some 80 ∧
    (60 : ℤ) ≠ 0 ∧ (80 : ℤ) ≠ 0 ∧ (60 : ℤ) ≠ 80 := by
  have h1 : calculateOverallScore sessionOneAnswered 0 = 60 := by
    simp only [calculateOverallScore, sessionOneAnswered]
    norm_num [jsRoundRat]
  have h2 : calculateOverallScore sessionOneAnswered (1 / 2) = 80 := by
    simp only [calculateOverallScore, sessionOneAnswered]
    norm_num [jsRoundRat]
  have e1 : (advanceSession sessionOneAnswered 1000 0 randZero).overallScore
      = some (calculateOverallScore sessionOneAnswered 0) := rfl
  have e2 : (advanceSession sessionOneAnswered 1000 (1 / 2) randZero).overallScore
      = some (calculateOverallScore sessionOneAnswered (1 / 2)) := rfl
  refine ⟨rfl, ?_, ?_, by decide, by decide, by decide⟩
  · rw [e1, h1]
  · rw [e2, h2]

/-- Claim C2 (corrected): below the last question, advance increments the
index by exactly 1 and touches nothing else; at the last question it
stamps status, completedAt and overallScore together; the index always
stays strictly below the question count (it never reaches it), and the
question list is immutable. Repeated advance on a completed session is
covered by the unconditional completion branch (see the
counterexample). -/
theorem c2_advance_state_machine (s : Session) (now : Nat) (r : ℚ)
    (rand : Nat → ℚ) (h : s.currentQuestionIndex < s.questions.length) :
    ((advanceSession s now r rand).currentQuestionIndex < s.questions.length ∧
     (advanceSession s now r rand).questions = s.questions) ∧
    (s.currentQuestionIndex < s.questions.length - 1 →
       (advanceSession s now r rand).currentQuestionIndex
           = s.currentQuestionIndex + 1 ∧
       (advanceSession s now r rand).status = s.status ∧
       (advanceSession s now r rand).completedAt = s.completedAt ∧
       (advanceSession s now r rand).overallScore = s.overallScore) ∧
    (¬ s.currentQuestionIndex < s.questions.length - 1 →
       (advanceSession s now r rand).currentQuestionIndex
           = s.currentQuestionIndex ∧
       (advanceSession s now r rand).status = SessionStatus.completed ∧
       (advanceSession s now r rand).completedAt = some now ∧
       (advanceSession s now r rand).overallScore
           = some (calculateOverallScore s r)) := by
  by_cases hlt : s.currentQuestionIndex < s.questions.length - 1
  · have he : advanceSession s now r rand
        = { s with currentQuestionIndex := s.currentQuestionIndex + 1 } := by
      rw [advanceSession, if_pos hlt]
    rw [he]
    refine ⟨⟨?_, rfl⟩, fun _ => ⟨rfl, rfl, rfl, rfl⟩, fun hc => absurd hlt hc⟩
    show s.currentQuestionIndex + 1 < s.questions.length
    omega
  · refine ⟨⟨?_, ?_⟩, fun hc => absurd hc hlt, fun _ => ⟨?_, ?_, ?_, ?_⟩⟩ <;>
      simp only [advanceSession, if_neg hlt] <;>
      first
      | exact h
      | rfl

/-- Counterexample for C2: completing a one-question session leaves the
index at 0, never equal to the question count 1; and a second advance on
the already-completed session neither fails nor is a no-op: it re-stamps
completedAt (100 becomes 200). -/
theorem c2_counterexample :
    (advanceSession sessionFresh 100 0 randZero).status
        = SessionStatus.completed ∧
    (advanceSession sessionFresh 100 0 randZero).currentQuestionIndex = 0 ∧
    sessionFresh.questions.length = 1 ∧ (0 : ℕ) ≠ 1 ∧
    (advanceSession sessionFresh 100 0 randZero).completedAt = some 100 ∧
    (advanceSession (advanceSession sessionFresh 100 0 randZero) 200 0
        randZero).status = SessionStatus.completed ∧
    (advanceSession (advanceSession sessionFresh 100 0 randZero) 200 0
        randZero).completedAt = some 200 ∧
    some (200 : ℕ) ≠ some (100 : ℕ) := by
  refine ⟨rfl, rfl, rfl, by decide, rfl, rfl, rfl, by decide⟩

/-- Witness for C2: the completion branch of the amended claim at a
concrete fresh one-question session. -/
theorem c2_witness :
    (advanceSession sessionFresh 100 0 randZero).currentQuestionIndex = 0 ∧
    (advanceSession sessionFresh 100 0 randZero).status
        = SessionStatus.completed ∧
    (advanceSession sessionFresh 100 0 randZero).completedAt = some 100 ∧
    (advanceSession sessionFresh 100 0 randZero).overallScore
        = some (calculateOverallScore sessionFresh 0) := by
  have h := (c2_advance_state_machine sessionFresh 100 0 randZero
    (by decide)).2.2 (by decide)
  exact ⟨h.1, h.2.1, h.2.2.1, h.2.2.2⟩

/-- Claim C3 (corrected): addAnswer fails with SessionNotFound on an
unknown id and with QuestionMismatch on a missing current question or a
non-matching questionId, each time returning the store untouched; but it
performs no status check at all: on a session in any status (completed
included) a matching questionId is accepted and the answer stored. -/
theorem c3_addAnswer_guards (store : SessionStore)
    (sessionId questionId answerText : String) (now : Nat) :
    (store.lookup sessionId = none →
        addAnswer store sessionId questionId answerText now
          = (store, Except.error SMError.sessionNotFound)) ∧
    (∀ session : Session, store.lookup sessionId = some session →
        session.questions.get? session.currentQuestionIndex = none →
        addAnswer store sessionId questionId answerText now
          = (store, Except.error SMError.questionMismatch)) ∧
    (∀ (session : Session) (cq : Question),
        store.lookup sessionId = some session →
        session.questions.get? session.currentQuestionIndex = some cq →
        cq.id ≠ questionId →
        addAnswer store sessionId questionId answerText now
          = (store, Except.error SMError.questionMismatch)) ∧
    (∀ (session : Session) (cq : Question),
        store.lookup sessionId = some session →
        session.questions.get? session.currentQuestionIndex = some cq →
        cq.id = questionId →
        (addAnswer store sessionId questionId answerText now).2
          = Except.ok ({ session with answers := session.answers ++
                [{ questionId := questionId, text := answerText,
                   submittedAt := now,
                   attempt := attemptsFor session.answers questionId + 1 }] },
              { questionId := questionId, text := answerText,
                submittedAt := now,
                attempt := attemptsFor session.answers questionId + 1 })) := by
  refine ⟨?_, ?_, ?_, ?_⟩
  · intro hnone
    simp [addAnswer, hnone]
  · intro session hlook hget
    simp only [addAnswer, hlook, hget]
  · intro session cq hlook hget hne
    simp only [addAnswer, hlook, hget]
    rw [if_pos hne]
  · intro session cq hlook hget hid
    simp only [addAnswer, hlook, hget]
    rw [if_neg (by simp [hid])]
    rfl

/-- Counterexample for C3: the completed fixture session accepts an
answer for its current question even though its status is not
in-progress, instead of failing with SessionNotActive. -/
theorem c3_counterexample :
    sessionCompleted.status = SessionStatus.completed ∧
    sessionCompleted.status ≠ SessionStatus.in_progress ∧
    addAnswer [("s2", sessionCompleted)] "s2" "q1" "late" 999
      = ([("s2", sessionCompletedAfter)],
         Except.ok (sessionCompletedAfter, answerLate)) := by
  refine ⟨rfl, by decide, rfl⟩

/-- Witness for C3: the not-found and mismatch guards at concrete
inputs. -/
theorem c3_witness :
    addAnswer [] "missing" "q1" "text" 0
      = ([], Except.error SMError.sessionNotFound) ∧
    addAnswer [("s1", sessionOneAnswered)] "s1" "other" "text" 0
      = ([("s1", sessionOneAnswered)], Except.error SMError.questionMismatch) := by
  constructor
  · exact (c3_addAnswer_guards [] "missing" "q1" "text" 0).1 rfl
  · exact (c3_addAnswer_guards [("s1", sessionOneAnswered)] "s1" "other" "text"
      0).2.2.1 sessionOneAnswered qVlookup (by decide) (by decide) (by decide)

/-- Claim C9 (corrected): the sweep takes no threshold parameter; its
cutoff is fixed at 24 hours (86400000 ms). A stored session survives the
sweep exactly when it is at most 24 hours old; if all sessions are older
the store empties, if none are it is untouched — status plays no
role in the condition. -/
theorem c9_sweep_fixed_cutoff (store : SessionStore) (now : Nat) :
    (∀ p ∈ store,
        (p ∈ cleanupExpiredSessions store now ↔
          now - p.2.startedAt ≤ 86400000)) ∧
    ((∀ p ∈ store, 86400000 < now - p.2.startedAt) →
        cleanupExpiredSessions store now = []) ∧
    ((∀ p ∈ store, now - p.2.startedAt ≤ 86400000) →
        cleanupExpiredSessions store now = store) := by
  refine ⟨?_, ?_, ?_⟩
  · intro p hp
    simp [cleanupExpiredSessions, List.mem_filter, hp, Nat.not_lt]
  · intro hall
    refine List.filter_eq_nil_iff.mpr ?_
    intro p hp
    simp [Nat.not_le.mpr (hall p hp)]
  · intro hall
    refine List.filter_eq_self.mpr ?_
    intro p hp
    simp [Nat.not_lt.mpr (hall p hp)]

/-- Counterexample for C9: a session 1 hour old survives the sweep (the
claim instantiated at threshold 0 hours demands it be removed), while
only sessions beyond the fixed 24-hour cutoff are removed. -/
theorem c9_counterexample :
    cleanupExpiredSessions [("s1", sessionOneAnswered)] 3600000
      = [("s1", sessionOneAnswered)] ∧
    [("s1", sessionOneAnswered)] ≠ ([] : SessionStore) ∧
    cleanupExpiredSessions [("s1", sessionOneAnswered)] 86400001 = [] := by decide

/-- Witness for C9: a two-session store, both young, is untouched. -/
theorem c9_witness : cleanupExpiredSessions storePair 1000 = storePair :=
  (c9_sweep_fixed_cutoff storePair 1000).2.2 (by decide)

/-- Claim C5 (corrected): the deterministic aggregate min(100,
round(0.6k + 0.3d + 0.1n)) short-circuits at 85 or more with pass true,
the aggregate itself as score, and no oracle call; an answer containing
every combined keyword, every domain term and at least five numeric
matches reaches at least 95 (not necessarily the capped maximum 100, see
the counterexample) and short-circuits. -/
theorem c5_deterministic_short_circuit (key : Bool) (q : Question) (a : String)
    (out : OracleOutcome) :
    (85 ≤ deterministicScore q a →
        rubricEvaluateAnswer key q a out
          = ({ score := (deterministicScore q a : ℤ), pass := true,
               feedback := "Excellent coverage of key concepts and formulas.",
               followUps := [] }, false)) ∧
    (combinedKeywordList q ≠ [] →
     (∀ w ∈ combinedKeywordList q,
        jsIncludes (jsToLower a) (jsToLower w) = true) →
     (∀ f ∈ formulaKeywords, jsIncludes (jsToLower a) f = true) →
     5 ≤ countNumericMatches a →
        95 ≤ deterministicScore q a ∧ deterministicScore q a ≤ 100 ∧
        rubricEvaluateAnswer key q a out
          = ({ score := (deterministicScore q a : ℤ), pass := true,
               feedback := "Excellent coverage of key concepts and formulas.",
               followUps := [] }, false)) := by
  have hshort : 85 ≤ deterministicScore q a →
      rubricEvaluateAnswer key q a out
        = ({ score := (deterministicScore q a : ℤ), pass := true,
             feedback := "Excellent coverage of key concepts and formulas.",
             followUps := [] }, false) := by
    intro h85
    rw [rubricEvaluateAnswer, if_pos h85]
  refine ⟨hshort, ?_⟩
  intro hne hkw hfm hnum
  have hk : keywordMatchScore q a = 100 := keywordMatchScore_of_all_hits q a hne hkw
  have hf : formulaMentionScore a = 100 := formulaMentionScore_of_all_hits a hfm
  have hb := numericCheckScore_bounds a hnum
  have h95 : 95 ≤ deterministicScore q a := by
    rw [deterministicScore, hk, hf]
    simp only [jsRoundDiv]
    omega
  exact ⟨h95, Nat.min_le_left _ _, hshort (by omega)⟩

/-- Counterexample for C5: fullAnswer contains every combined keyword of
qVlookup, every domain term, and exactly five numeric matches, yet
scores 95, not the capped deterministic maximum of 100 (which needs ten
numeric matches); it does short-circuit with pass true. -/
theorem c5_counterexample :
    ((combinedKeywordList qVlookup).all fun w =>
        jsIncludes (jsToLower fullAnswer) (jsToLower w)) = true ∧
    (formulaKeywords.all fun f => jsIncludes (jsToLower fullAnswer) f) = true ∧
    countNumericMatches fullAnswer = 5 ∧
    deterministicScore qVlookup fullAnswer = 95 ∧
    rubricEvaluateAnswer true qVlookup fullAnswer OracleOutcome.noResponse
      = ({ score := 95, pass := true,
           feedback := "Excellent coverage of key concepts and formulas.",
           followUps := [] }, false) ∧
    (95 : ℕ) ≠ 100 := by decide

/-- Witness for C5: the floor guarantee applied to the concrete full
answer. -/
theorem c5_witness :
    95 ≤ deterministicScore qVlookup fullAnswer ∧
    deterministicScore qVlookup fullAnswer ≤ 100 ∧
    rubricEvaluateAnswer false qVlookup fullAnswer OracleOutcome.noResponse
      = ({ score := (deterministicScore qVlookup fullAnswer : ℤ), pass := true,
           feedback := "Excellent coverage of key concepts and formulas.",
           followUps := [] }, false) :=
  (c5_deterministic_short_circuit false qVlookup fullAnswer
    OracleOutcome.noResponse).2 (by decide) (by decide) (by decide) (by decide)

/-- Claim C8 (confirmed): the fallback generator returns exactly the
lesser of count and the 5 available templates (for any category it
never fails: the category is metadata only), and every returned question
has a unique id, nonempty prompt text equal to a template, the requested
difficulty, a nonempty expected-answer outline, and a keyword list
derived from the prompt by the stopword-stripping extractor, at most 5
long. -/
theorem c8_fallback_generator (count : Nat) (difficulty : Difficulty)
    (category : Option String) (now : Nat) :
    (generateFallbackQuestions count difficulty category now).length
        = min count (templatesFor difficulty).length ∧
    (generateFallbackQuestions count difficulty category now).map Question.text
        = (templatesFor difficulty).take count ∧
    ((generateFallbackQuestions count difficulty category now).map
        Question.id).Nodup ∧
    (∀ q ∈ generateFallbackQuestions count difficulty category now,
        q.text ≠ "" ∧ q.difficulty = difficulty ∧ q.expectedAnswer ≠ "" ∧
        q.keywords = extractKeywords q.text ∧ q.keywords.length ≤ 5) := by
  refine ⟨?_, ?_, ?_, ?_⟩
  · simp [generateFallbackQuestions, List.length_take]
  · simp only [generateFallbackQuestions, List.map_map]
    exact List.enum_map_snd _
  · have hre : (generateFallbackQuestions count difficulty category now).map
        Question.id
        = (List.range ((templatesFor difficulty).take count).length).map
            (fun i => fallbackQuestionId difficulty i now) := by
      simp only [generateFallbackQuestions, List.map_map]
      rw [← List.enum_map_fst ((templatesFor difficulty).take count),
        List.map_map]
      rfl
    rw [hre]
    refine List.Nodup.map_on ?_ (List.nodup_range _)
    intro x hx y hy hf
    have hlen : ((templatesFor difficulty).take count).length ≤ 5 := by
      have h5 := templatesFor_length difficulty
      simp only [List.length_take]
      omega
    have hxlt : x < 5 := by
      have := List.mem_range.mp hx
      omega
    have hylt : y < 5 := by
      have := List.mem_range.mp hy
      omega
    exact fallbackQuestionId_inj difficulty now x hxlt y hylt hf
  · intro q hq
    simp only [generateFallbackQuestions] at hq
    obtain ⟨p, hp, rfl⟩ := List.mem_map.mp hq
    have hmem : p.2 ∈ (templatesFor difficulty).take count :=
      List.get?_mem (List.mem_enum_iff_get?.mp hp)
    have htm : p.2 ∈ templatesFor difficulty := List.take_subset _ _ hmem
    refine ⟨templatesFor_text_ne_empty difficulty p.2 htm, rfl, ?_, rfl, ?_⟩
    · intro he
      have hlen := congrArg String.length he
      rw [String.length_append, String.length_append] at hlen
      have hdot : String.length "." = 1 := rfl
      have hemp : String.length "" = 0 := rfl
      omega
    · show (extractKeywords p.2).length ≤ 5
      rw [extractKeywords]
      simp only [List.length_take]
      exact Nat.min_le_left _ _

/-- Witness for C8: three beginner questions at timestamp 42, count
exactly 3 with pairwise distinct ids. -/
theorem c8_witness :
    (generateFallbackQuestions 3 Difficulty.beginner none 42).length = 3 ∧
    ((generateFallbackQuestions 3 Difficulty.beginner none 42).map
        Question.id).Nodup := by
  have h := c8_fallback_generator 3 Difficulty.beginner none 42
  exact ⟨h.1.trans (by decide), h.2.2.1⟩
